import Mathlib

/-!
Verification of the MediAssist reminder application (src/app.py) against its
natural-language specification.  The Python source is shallowly embedded:
pure computations become Lean functions, the Streamlit/Firestore/HTTP side
effects become explicit parameters (outcome values for calls that may raise,
a list-of-documents model for the Firestore state, and lists of emitted
error-message strings for `st.error` calls).
-/

namespace MediAssist

/-- Model of Python `datetime.time`: hour, minute, second, microsecond.
In CPython every `time` object satisfies `hour < 24`, `minute < 60`,
`second < 60`, `microsecond < 1000000`; those bounds appear as hypotheses
where theorems need them. -/
structure PyTime where
  hour : Nat
  minute : Nat
  second : Nat
  microsecond : Nat
deriving DecidableEq, Repr, Inhabited

/-- The character for a single decimal digit `n ≤ 9` (code point 48 + n). -/
def digitChar (n : Nat) : Char := Char.ofNat (48 + n)

/-- Zero-padded two-digit rendering of `n ≤ 99`, as `strftime` does for the
`%H` and `%M` directives. -/
def pad2 (n : Nat) : List Char := [digitChar (n / 10), digitChar (n % 10)]

/-- Embedding of `reminder_time.strftime("%H:%M")` (src/app.py line 209):
the hour, a colon, and the minute, each zero-padded to two digits.  Seconds
and microseconds of the time value are not written. -/
def strftimeHM (t : PyTime) : String :=
  String.mk (pad2 t.hour ++ ':' :: pad2 t.minute)

/-- Take up to two leading decimal digits from a character list, as a
`strptime` `%H` or `%M` directive does, returning the digits read and the
rest of the input. -/
def takeDigits2 : List Char → List Char × List Char
  | [] => ([], [])
  | c :: cs =>
    if c.isDigit then
      match cs with
      | d :: rest => if d.isDigit then ([c, d], rest) else ([c], cs)
      | [] => ([c], [])
    else ([], c :: cs)

/-- Numeric value of a list of decimal digit characters, most significant
first. -/
def digitsToNat (cs : List Char) : Nat :=
  cs.foldl (fun acc c => acc * 10 + (c.toNat - 48)) 0

/-- Embedding of `datetime.strptime(s, "%H:%M").time()` (src/app.py line
221): one or two digits for the hour, a colon, one or two digits for the
minute, nothing after; hour at most 23, minute at most 59.  On any other
input `strptime` raises `ValueError`, modelled by `none`.  The resulting
time value has second 0 and microsecond 0. -/
def strptimeHM (s : String) : Option PyTime :=
  match takeDigits2 s.toList with
  | (c :: cs, ':' :: rest2) =>
    match takeDigits2 rest2 with
    | (d :: ds, []) =>
      let hh := digitsToNat (c :: cs)
      let mm := digitsToNat (d :: ds)
      if hh ≤ 23 ∧ mm ≤ 59 then some ⟨hh, mm, 0, 0⟩ else none
    | _ => none
  | _ => none

theorem digitChar_isDigit {d : Nat} (h : d ≤ 9) : (digitChar d).isDigit = true := by
  interval_cases d <;> decide

theorem digitChar_toNat {d : Nat} (h : d ≤ 9) : (digitChar d).toNat = 48 + d := by
  interval_cases d <;> decide

theorem digitChar_ne_colon {d : Nat} (h : d ≤ 9) : digitChar d ≠ ':' := by
  interval_cases d <;> decide

/-- `digitsToNat` inverts `pad2` on two-digit inputs. -/
theorem digitsToNat_pad2 {n : Nat} (h : n ≤ 99) : digitsToNat (pad2 n) = n := by
  have h1 : n / 10 ≤ 9 := by omega
  have h2 : n % 10 ≤ 9 := Nat.le_of_lt_succ (Nat.mod_lt _ (by omega))
  simp [pad2, digitsToNat, digitChar_toNat h1, digitChar_toNat h2]
  omega

theorem takeDigits2_pad2 {n : Nat} (h : n ≤ 99) (rest : List Char) :
    takeDigits2 (pad2 n ++ rest) = (pad2 n, rest) := by
  have h1 : n / 10 ≤ 9 := by omega
  have h2 : n % 10 ≤ 9 := Nat.le_of_lt_succ (Nat.mod_lt _ (by omega))
  simp [pad2, takeDigits2, digitChar_isDigit h1, digitChar_isDigit h2]

/-- On a time value whose second and microsecond parts are zero, formatting
with `%H:%M` and parsing the result back is the identity. -/
theorem strptime_strftime (t : PyTime) (hh : t.hour < 24) (hm : t.minute < 60)
    (hs : t.second = 0) (hu : t.microsecond = 0) :
    strptimeHM (strftimeHM t) = some t := by
  obtain ⟨h, m, s, u⟩ := t
  simp only at hh hm hs hu
  subst hs hu
  have h99 : h ≤ 99 := by omega
  have m99 : m ≤ 99 := by omega
  have e1 : takeDigits2 (pad2 h ++ ':' :: pad2 m) = (pad2 h, ':' :: pad2 m) :=
    takeDigits2_pad2 h99 _
  have e2 : takeDigits2 (pad2 m) = (pad2 m, []) := by
    simpa using takeDigits2_pad2 m99 []
  show strptimeHM (String.mk (pad2 h ++ ':' :: pad2 m)) = some ⟨h, m, 0, 0⟩
  have etl : (String.mk (pad2 h ++ ':' :: pad2 m)).toList = pad2 h ++ ':' :: pad2 m := rfl
  rw [strptimeHM, etl, e1]
  simp only [pad2] at e2 ⊢
  rw [e2]
  have e3 : digitsToNat [digitChar (h / 10), digitChar (h % 10)] = h := by
    simpa [pad2] using digitsToNat_pad2 h99
  have e4 : digitsToNat [digitChar (m / 10), digitChar (m % 10)] = m := by
    simpa [pad2] using digitsToNat_pad2 m99
  simp only [e3, e4]
  rw [if_pos ⟨by omega, by omega⟩]

/-! ## Firestore document model -/

/-- A field value of a Firestore document in this application: a string, the
`firestore.SERVER_TIMESTAMP` sentinel as written by the client, or the
timestamp the server resolves the sentinel to. -/
inductive FVal where
  | str (s : String)
  | serverTimestamp
  | timestamp (n : Nat)
deriving DecidableEq, Repr

/-- A Firestore document as a Python dict: association list from field name
to value (first binding wins, as dict keys are unique). -/
def DocData := List (String × FVal)
deriving DecidableEq, Repr, Inhabited

/-- Python `d.get(k)` / `d[k]` lookup: `none` models a missing key (where
`d[k]` raises `KeyError`). -/
def dictGet (d : DocData) (k : String) : Option FVal :=
  (d.find? (fun p => p.1 == k)).map (fun p => p.2)

/-- The document dict built by `add_reminder_to_firestore` (src/app.py lines
57-63): exactly the five fields `user_id`, `medicine_name`, `dosage`,
`time`, `created_at`, the last holding the server-timestamp sentinel. -/
def reminderDoc (user_id medicine_name dosage reminder_time_str : String) : DocData :=
  [("user_id", FVal.str user_id),
   ("medicine_name", FVal.str medicine_name),
   ("dosage", FVal.str dosage),
   ("time", FVal.str reminder_time_str),
   ("created_at", FVal.serverTimestamp)]

/-- A document as stored by the server: its dict plus the server timestamp
that resolved the `created_at` sentinel (the value `order_by("created_at")`
sorts on). -/
structure FsDoc where
  data : DocData
  createdAt : Nat
deriving DecidableEq, Repr

/-- The Firestore database: a list of (collection name, document), in
creation order. -/
def Firestore := List (String × FsDoc)
deriving DecidableEq, Repr

/-- The documents of one collection, in creation order. -/
def collectionDocs (fs : Firestore) (c : String) : List FsDoc :=
  (List.filter (fun p => p.1 == c) fs).map (fun p => p.2)

/-- `db.collection(c).add(doc)`: appends a new document to collection `c`;
never touches an existing document. -/
def fsAdd (fs : Firestore) (c : String) (d : FsDoc) : Firestore :=
  List.append fs [(c, d)]

/-- `db.collection(c).where(field, "==", v).order_by("created_at").stream()`
(src/app.py line 74): the documents of `c` whose `field` equals `v`,
ascending by resolved creation timestamp. -/
def fsQueryWhereOrder (fs : Firestore) (c field : String) (v : FVal) : List FsDoc :=
  ((collectionDocs fs c).filter (fun d => dictGet d.data field == some v)).mergeSort
    (fun a b => a.createdAt ≤ b.createdAt)

/-- Result of one call to `add_reminder_to_firestore`: the returned boolean,
the database afterwards, and the `st.error` messages emitted. -/
structure AddOutcome where
  returned : Bool
  fs : Firestore
  errors : List String
deriving DecidableEq, Repr

/-- Embedding of `add_reminder_to_firestore` (src/app.py lines 52-67).
`dbReady` is whether module-level `db` is not `None`; `writeRaises` is
`some e` when the `.add` call raises an exception with message `e`;
`serverNow` is the server timestamp assigned to the new document when the
write succeeds. -/
def add_reminder_to_firestore (dbReady : Bool) (writeRaises : Option String)
    (serverNow : Nat) (fs : Firestore)
    (user_id medicine_name dosage reminder_time_str : String) : AddOutcome :=
  if !dbReady then
    ⟨false, fs, ["Firestore is not initialized. Cannot add reminder."]⟩
  else
    match writeRaises with
    | some e => ⟨false, fs, ["Error adding reminder to Firestore: " ++ e]⟩
    | none =>
      ⟨true,
       fsAdd fs "reminders" ⟨reminderDoc user_id medicine_name dosage reminder_time_str, serverNow⟩,
       []⟩

/-- The list of dicts `get_reminders_from_firestore` builds from the query
stream in the success case (src/app.py lines 74-78): `doc.to_dict()` for
each streamed document. -/
def get_reminders_ok (fs : Firestore) (user_id : String) : List DocData :=
  (fsQueryWhereOrder fs "reminders" "user_id" (FVal.str user_id)).map (fun d => d.data)

/-- Embedding of `get_reminders_from_firestore` (src/app.py lines 69-81):
returns the list of reminder dicts and the `st.error` messages emitted.
`queryRaises` is `some e` when the query/stream raises with message `e`. -/
def get_reminders_from_firestore (dbReady : Bool) (queryRaises : Option String)
    (fs : Firestore) (user_id : String) : List DocData × List String :=
  if !dbReady then
    ([], ["Firestore is not initialized. Cannot retrieve reminders."])
  else
    match queryRaises with
    | some e => ([], ["Error fetching reminders from Firestore: " ++ e])
    | none => (get_reminders_ok fs user_id, [])

/-- One user-triggered operation against the reminders store: the add-form
submission or the list rendering.  The parameters carry the environment of
the call (db availability, possible exception, server time, inputs). -/
inductive AppOp where
  | addOp (dbReady : Bool) (writeRaises : Option String) (serverNow : Nat)
      (user_id medicine_name dosage reminder_time_str : String)
  | listOp (dbReady : Bool) (queryRaises : Option String) (user_id : String)
deriving DecidableEq, Repr

/-- The database after one operation: adds go through
`add_reminder_to_firestore`; the list rendering only reads. -/
def stepFs (fs : Firestore) : AppOp → Firestore
  | AppOp.addOp db w n u m d t => (add_reminder_to_firestore db w n fs u m d t).fs
  | AppOp.listOp _ _ _ => fs

/-- The database after a whole trace of operations. -/
def runFs (fs : Firestore) (ops : List AppOp) : Firestore :=
  ops.foldl stepFs fs

/-! ## Reminder list display (src/app.py lines 217-233) -/

/-- Python comparison of two `datetime.time` values: lexicographic on
(hour, minute, second, microsecond).  This is the order `sorted` uses via
the key `datetime.strptime(x["time"], "%H:%M").time()`. -/
def pyTimeLeB (a b : PyTime) : Bool :=
  decide (a.hour < b.hour ∨ (a.hour = b.hour ∧
    (a.minute < b.minute ∨ (a.minute = b.minute ∧
      (a.second < b.second ∨ (a.second = b.second ∧
        a.microsecond ≤ b.microsecond))))))

/-- The sort key `lambda x: datetime.strptime(x["time"], "%H:%M").time()`
(src/app.py line 221).  `none` models the exception raised when the `time`
key is missing (`KeyError`), not a string (`TypeError`), or not of the
`%H:%M` shape (`ValueError`). -/
def reminderSortKey (d : DocData) : Option PyTime :=
  match dictGet d "time" with
  | some (FVal.str s) => strptimeHM s
  | _ => none

/-- The comparison `sorted` effectively applies to two records once every
key is defined. -/
def reminderLeB (a b : DocData) : Bool :=
  pyTimeLeB ((reminderSortKey a).getD default) ((reminderSortKey b).getD default)

/-- Embedding of `sorted(user_reminders, key=...)` (src/app.py line 221):
if the key raises on any record the whole call raises (`Except.error`);
otherwise it returns the records stably sorted ascending by key. -/
def sorted_reminders (l : List DocData) : Except String (List DocData) :=
  if l.all (fun d => (reminderSortKey d).isSome) then
    Except.ok (l.mergeSort reminderLeB)
  else
    Except.error "exception raised by the sort key"

/-- One row of the rendered table (src/app.py lines 226-230). -/
structure Row where
  medicine : FVal
  dosage : FVal
  timeCol : FVal
deriving DecidableEq, Repr

/-- One iteration of the display loop: `reminder["medicine_name"]`,
`reminder["dosage"]`, `reminder["time"]`; a missing key raises `KeyError`
(`Except.error`). -/
def rowOf (d : DocData) : Except String Row :=
  match dictGet d "medicine_name", dictGet d "dosage", dictGet d "time" with
  | some m, some g, some t => Except.ok ⟨m, g, t⟩
  | _, _, _ => Except.error "KeyError while building display data"

/-- The display loop over the sorted records (src/app.py lines 224-230),
appending one row per record and propagating the first exception. -/
def buildDisplayData : List DocData → Except String (List Row)
  | [] => Except.ok []
  | d :: ds =>
    match rowOf d with
    | Except.error e => Except.error e
    | Except.ok r =>
      match buildDisplayData ds with
      | Except.error e => Except.error e
      | Except.ok rs => Except.ok (r :: rs)

/-- The whole reminder-list rendering (src/app.py lines 219-233): an empty
list shows an info message and no table; otherwise the records are sorted
and the table rows built.  `Except.error` models an uncaught exception
escaping the script. -/
def renderReminderTable (l : List DocData) : Except String (List Row) :=
  if l.isEmpty then Except.ok []
  else
    match sorted_reminders l with
    | Except.error e => Except.error e
    | Except.ok s => buildDisplayData s

/-! ## Clinic search (src/app.py lines 84-122 and 241-254) -/

/-- One entry of the places-API `results` array, with the four fields the
program reads.  `none` models a missing key; a numeric `rating` value is
carried as its rendered string. -/
structure Place where
  name : Option String
  formatted_address : Option String
  rating : Option String
  place_id : Option String
deriving DecidableEq, Repr

/-- Python truthiness of a `.get` result: `None` and the empty string are
falsy. -/
def truthy : Option String → Bool
  | none => false
  | some s => !s.isEmpty

/-- The decoded JSON body: `data.get("results")` is `none` when the key is
absent. -/
structure PlacesData where
  results : Option (List Place)
deriving DecidableEq, Repr

/-- One clinic record appended by the loop (src/app.py lines 110-115). -/
structure Clinic where
  name : String
  address : String
  rating : String
  link : String
deriving DecidableEq, Repr

/-- The Google Maps link built on src/app.py line 109. -/
def mapsLink (name address place_id : String) : String :=
  "https://www.google.com/maps/search/?api=1&query=" ++ name ++ "," ++ address ++
    "&query_place_id=" ++ place_id

/-- Whether a places entry passes the `if name and address and place_id`
check (src/app.py line 108). -/
def completePlace (p : Place) : Bool :=
  truthy p.name && truthy p.formatted_address && truthy p.place_id

/-- The clinic record built from a complete entry. -/
def placeToClinic (p : Place) : Clinic :=
  ⟨p.name.getD "", p.formatted_address.getD "",
   p.rating.getD "N/A",
   mapsLink (p.name.getD "") (p.formatted_address.getD "") (p.place_id.getD "")⟩

/-- The loop `for place in data["results"][:5]` body (src/app.py lines
102-115): read the four fields, default the rating to "N/A", and append a
clinic record exactly when name, address and place id are all truthy. -/
def clinicsLoop : List Place → List Clinic
  | [] => []
  | p :: ps =>
    if completePlace p then placeToClinic p :: clinicsLoop ps
    else clinicsLoop ps

/-- The clinic list built from a successfully decoded response body:
nothing when `results` is absent or empty (falsy), otherwise the loop over
the first five entries. -/
def clinicsOfData (data : PlacesData) : List Clinic :=
  match data.results with
  | none => []
  | some rs => if rs.isEmpty then [] else clinicsLoop (rs.take 5)

/-- Outcome of the HTTP call in `find_nearby_clinics`: success with a
decoded body, a `requests` exception (connection error or non-2xx status
via `raise_for_status`), or a JSON decoding error. -/
inductive HttpOutcome where
  | ok (data : PlacesData)
  | requestExc (msg : String)
  | jsonError
deriving DecidableEq, Repr

/-- Embedding of `find_nearby_clinics` (src/app.py lines 84-122): the
returned clinic list and the `st.error` messages emitted.  `mapsKey` is the
`GOOGLE_MAPS_API_KEY` environment value (`none` when unset). -/
def find_nearby_clinics (mapsKey : Option String) (outcome : HttpOutcome) :
    List Clinic × List String :=
  if !truthy mapsKey then
    ([], ["Google Maps API Key is not set. Please add it to your .env file."])
  else
    match outcome with
    | HttpOutcome.ok data => (clinicsOfData data, [])
    | HttpOutcome.requestExc e =>
      ([], ["Error connecting to Google Maps API: " ++ e ++ ". Check your API key and network."])
    | HttpOutcome.jsonError =>
      ([], ["Error decoding JSON response from Google Maps API."])

/-- The clinics rendered as links by the Search Clinics tab (src/app.py
lines 244-250): one markdown link line per element of the returned list. -/
def renderedClinics (mapsKey : Option String) (outcome : HttpOutcome) : List Clinic :=
  (find_nearby_clinics mapsKey outcome).1

/-! ## Startup configuration (src/app.py lines 12-39) and the chat call -/

/-- The environment as read at module load: the two API keys and the
credentials path (each `none` when the variable is unset), whether the
credentials file exists, and whether constructing the Firestore client
raises (with its message). -/
structure Config where
  gemini_api_key : Option String
  google_maps_api_key : Option String
  firestore_credentials : Option String
  credentials_file_exists : Bool
  firestore_init_raises : Option String
deriving DecidableEq, Repr

/-- The `st.error` messages emitted for the Gemini key at module load
(src/app.py lines 14-28): the debug check and the configuration check, both
firing exactly when the key is falsy. -/
def initGemini (cfg : Config) : List String :=
  (if truthy cfg.gemini_api_key then []
   else ["DEBUG: GEMINI_API_KEY is None! Check your .env file."]) ++
  (if truthy cfg.gemini_api_key then []
   else ["Gemini API Key not found. Please set GEMINI_API_KEY in your .env file."])

/-- Firestore initialization (src/app.py lines 31-39): whether `db` ends up
non-`None`, and the `st.error` messages emitted.  An unset
`FIRESTORE_CREDENTIALS` makes `os.path.exists(None)` raise `TypeError`,
which the surrounding `except` catches. -/
def initFirestore (cfg : Config) : Bool × List String :=
  match cfg.firestore_credentials with
  | none =>
    (false,
     ["Error initializing Firestore: " ++
       "TypeError: path should be string, bytes, os.PathLike or integer, not NoneType"])
  | some _ =>
    if !cfg.credentials_file_exists then
      (false, ["Firestore credentials file not found. Please check your .env and file path."])
    else
      match cfg.firestore_init_raises with
      | some e => (false, ["Error initializing Firestore: " ++ e])
      | none => (true, [])

/-- Outcome of the Gemini chat round trip inside `get_gemini_response`:
either the reply text or an exception with message `e` (bad key, network
failure, malformed response — all surface as exceptions of the client
library). -/
inductive ChatOutcome where
  | ok (text : String)
  | exc (msg : String)
deriving DecidableEq, Repr

/-- Embedding of `get_gemini_response` (src/app.py lines 42-49): the reply
text on success, an inline error string on any exception; the function
itself never raises. -/
def get_gemini_response (outcome : ChatOutcome) : String :=
  match outcome with
  | ChatOutcome.ok t => t
  | ChatOutcome.exc e =>
    "Error communicating with Gemini API: " ++ e ++
      ". Please check your API key and network connection."

/-! ## Helper lemmas -/

theorem pyTimeLeB_trans (a b c : PyTime) (hab : pyTimeLeB a b) (hbc : pyTimeLeB b c) :
    pyTimeLeB a c := by
  simp only [pyTimeLeB, decide_eq_true_eq] at hab hbc ⊢
  omega

theorem pyTimeLeB_total (a b : PyTime) : pyTimeLeB a b || pyTimeLeB b a := by
  simp only [pyTimeLeB, Bool.or_eq_true, decide_eq_true_eq]
  omega

theorem reminderLeB_trans (a b c : DocData) (hab : reminderLeB a b) (hbc : reminderLeB b c) :
    reminderLeB a c :=
  pyTimeLeB_trans _ _ _ hab hbc

theorem reminderLeB_total (a b : DocData) : reminderLeB a b || reminderLeB b a :=
  pyTimeLeB_total _ _

/-- The clinic loop keeps, in order, exactly the complete entries, each
turned into its clinic record. -/
theorem clinicsLoop_eq (ps : List Place) :
    clinicsLoop ps = (ps.filter completePlace).map placeToClinic := by
  induction ps with
  | nil => rfl
  | cons p ps ih =>
    by_cases hp : completePlace p
    · simp [clinicsLoop, hp, ih]
    · simp [clinicsLoop, hp, ih, List.filter_cons]

/-- `clinicsOfData` on any body equals the filtered-and-mapped first five
entries (the empty-results truthiness check changes nothing). -/
theorem clinicsOfData_eq (data : PlacesData) :
    clinicsOfData data =
      (((data.results.getD []).take 5).filter completePlace).map placeToClinic := by
  obtain ⟨rs⟩ := data
  cases rs with
  | none => rfl
  | some l =>
    cases l with
    | nil => rfl
    | cons p ps => simp [clinicsOfData, clinicsLoop_eq]

theorem collectionDocs_fsAdd (fs : Firestore) (c c' : String) (d : FsDoc) :
    collectionDocs (fsAdd fs c d) c' =
      List.append (collectionDocs fs c') (if c == c' then [d] else []) := by
  by_cases h : c == c'
  · simp [collectionDocs, fsAdd, List.filter_append, h]
  · simp only [collectionDocs, fsAdd, List.filter_append]
    simp [List.filter, h]

/-- A sort key that is `isSome` yields a string `time` field. -/
theorem reminderSortKey_time {d : DocData} (h : (reminderSortKey d).isSome) :
    (dictGet d "time").isSome := by
  unfold reminderSortKey at h
  cases hd : dictGet d "time" with
  | none => rw [hd] at h; simp at h
  | some v => simp

theorem rowOf_ok {d : DocData} (h1 : (dictGet d "medicine_name").isSome)
    (h2 : (dictGet d "dosage").isSome) (h3 : (dictGet d "time").isSome) :
    ∃ r, rowOf d = Except.ok r := by
  obtain ⟨m, hm⟩ := Option.isSome_iff_exists.mp h1
  obtain ⟨g, hg⟩ := Option.isSome_iff_exists.mp h2
  obtain ⟨t, ht⟩ := Option.isSome_iff_exists.mp h3
  exact ⟨⟨m, g, t⟩, by simp [rowOf, hm, hg, ht]⟩

theorem buildDisplayData_ok (s : List DocData)
    (h : ∀ d ∈ s, (dictGet d "medicine_name").isSome ∧ (dictGet d "dosage").isSome ∧
      (dictGet d "time").isSome) :
    ∃ rows, buildDisplayData s = Except.ok rows := by
  induction s with
  | nil => exact ⟨[], rfl⟩
  | cons d ds ih =>
    obtain ⟨h1, h2, h3⟩ := h d (by simp)
    obtain ⟨r, hr⟩ := rowOf_ok h1 h2 h3
    obtain ⟨rows, hrows⟩ := ih (fun x hx => h x (by simp [hx]))
    exact ⟨r :: rows, by simp [buildDisplayData, hr, hrows]⟩

/-! ## Claims -/

/-- C1: formatting a reminder time value with `%H:%M` and parsing the
stored string back is the identity — as amended: for every time value whose
second and microsecond components are zero (the claim fails for times
carrying seconds, which the stored `HH:MM` format drops). -/
theorem C1_round_trip (t : PyTime) (hh : t.hour < 24) (hm : t.minute < 60)
    (hs : t.second = 0) (hu : t.microsecond = 0) :
    strptimeHM (strftimeHM t) = some t :=
  strptime_strftime t hh hm hs hu

theorem C1_round_trip_witness :
    strptimeHM (strftimeHM ⟨8, 30, 0, 0⟩) = some ⟨8, 30, 0, 0⟩ :=
  C1_round_trip ⟨8, 30, 0, 0⟩ (by decide) (by decide) rfl rfl

/-- C1 counterexample: the valid time value 08:30:45 does not round-trip —
the stored string is "08:30" and parsing it back yields 08:30:00, so the
stored format is not lossless for every reminder time value. -/
theorem C1_round_trip_cex :
    strptimeHM (strftimeHM ⟨8, 30, 45, 0⟩) = some ⟨8, 30, 0, 0⟩ ∧
      strptimeHM (strftimeHM ⟨8, 30, 45, 0⟩) ≠ some ⟨8, 30, 45, 0⟩ := by
  constructor <;> decide

/-- C4 (amended): every reminder document written by the add action has
exactly the fields user_id, medicine_name, dosage, time, created_at, in
that order, with the session identifier stored under the field name
`user_id` (not `session_id`), the three strings and the time string as
given, and the server-timestamp sentinel under created_at. -/
theorem C4_doc_fields (uid mn dg t : String) :
    (reminderDoc uid mn dg t).map Prod.fst =
        ["user_id", "medicine_name", "dosage", "time", "created_at"] ∧
      (reminderDoc uid mn dg t).map Prod.snd =
        [FVal.str uid, FVal.str mn, FVal.str dg, FVal.str t, FVal.serverTimestamp] :=
  ⟨rfl, rfl⟩

theorem C4_doc_fields_witness :
    (reminderDoc "user_17" "Aspirin" "1 tablet" "08:00").map Prod.fst =
        ["user_id", "medicine_name", "dosage", "time", "created_at"] ∧
      (reminderDoc "user_17" "Aspirin" "1 tablet" "08:00").map Prod.snd =
        [FVal.str "user_17", FVal.str "Aspirin", FVal.str "1 tablet",
         FVal.str "08:00", FVal.serverTimestamp] :=
  C4_doc_fields "user_17" "Aspirin" "1 tablet" "08:00"

/-- C4 counterexample: the written document has no `session_id` field; the
session identifier is stored under `user_id` instead. -/
theorem C4_no_session_id :
    dictGet (reminderDoc "user_17" "Aspirin" "1 tablet" "08:00") "session_id" = none ∧
      dictGet (reminderDoc "user_17" "Aspirin" "1 tablet" "08:00") "user_id" =
        some (FVal.str "user_17") := by
  constructor <;> decide

/-- C2: for every non-empty reminder list whose `time` fields all parse as
`%H:%M` (which holds for every record the add action writes), the rendering
sorts the list into some `s` that is a permutation of the input, ascending
in the parsed time values, and the table rows are built from `s` in that
order. -/
theorem C2_table_sorted (l : List DocData) (hne : l ≠ [])
    (hkeys : ∀ d ∈ l, (reminderSortKey d).isSome) :
    ∃ s, sorted_reminders l = Except.ok s ∧ List.Perm s l ∧
      s.Pairwise (fun a b => reminderLeB a b = true) ∧
      renderReminderTable l = buildDisplayData s := by
  have hall : l.all (fun d => (reminderSortKey d).isSome) = true :=
    List.all_eq_true.mpr (fun d hd => hkeys d hd)
  refine ⟨l.mergeSort reminderLeB, ?_, ?_, ?_, ?_⟩
  · simp [sorted_reminders, hall]
  · exact List.mergeSort_perm l reminderLeB
  · exact List.sorted_mergeSort reminderLeB_trans reminderLeB_total l
  · simp [renderReminderTable, sorted_reminders, hall, hne]

theorem C2_table_sorted_witness :
    ∃ s, sorted_reminders
        [[("time", FVal.str "09:00")], [("time", FVal.str "08:00")]] = Except.ok s ∧
      List.Perm s [[("time", FVal.str "09:00")], [("time", FVal.str "08:00")]] ∧
      s.Pairwise (fun a b => reminderLeB a b = true) ∧
      renderReminderTable [[("time", FVal.str "09:00")], [("time", FVal.str "08:00")]] =
        buildDisplayData s :=
  C2_table_sorted [[("time", FVal.str "09:00")], [("time", FVal.str "08:00")]]
    (by decide) (by decide)

/-- C3 (amended): every failure inside the four service-call functions is
caught there and surfaced as an inline message with a safe return value —
the chat call returns an inline error string on any exception, the clinic
search and both Firestore functions return their fallback values alongside
an error message — and the reminder list display never raises on records
shaped as the add action writes them (all three keys present, `time`
parseable); the original claim fails because the display raises an uncaught
exception on malformed stored records. -/
theorem C3_failures_caught :
    (∀ e, get_gemini_response (ChatOutcome.exc e) =
      "Error communicating with Gemini API: " ++ e ++
        ". Please check your API key and network connection.") ∧
    (∀ k e, (find_nearby_clinics k (HttpOutcome.requestExc e)).1 = [] ∧
      (find_nearby_clinics k (HttpOutcome.requestExc e)).2 ≠ []) ∧
    (∀ k, (find_nearby_clinics k HttpOutcome.jsonError).1 = [] ∧
      (find_nearby_clinics k HttpOutcome.jsonError).2 ≠ []) ∧
    (∀ db e n fs u m dg t,
      (add_reminder_to_firestore db (some e) n fs u m dg t).returned = false ∧
      (add_reminder_to_firestore db (some e) n fs u m dg t).errors ≠ []) ∧
    (∀ db e fs u, (get_reminders_from_firestore db (some e) fs u).1 = [] ∧
      (get_reminders_from_firestore db (some e) fs u).2 ≠ []) ∧
    (∀ l, (∀ d ∈ l, (reminderSortKey d).isSome ∧
        (dictGet d "medicine_name").isSome ∧ (dictGet d "dosage").isSome) →
      ∃ rows, renderReminderTable l = Except.ok rows) := by
  refine ⟨fun e => rfl, ?_, ?_, ?_, ?_, ?_⟩
  · intro k e
    cases hk : truthy k <;> simp [find_nearby_clinics, hk]
  · intro k
    cases hk : truthy k <;> simp [find_nearby_clinics, hk]
  · intro db e n fs u m dg t
    cases db <;> simp [add_reminder_to_firestore]
  · intro db e fs u
    cases db <;> simp [get_reminders_from_firestore]
  · intro l hl
    by_cases hemp : l.isEmpty
    · exact ⟨[], by simp [renderReminderTable, hemp]⟩
    · have hall : l.all (fun d => (reminderSortKey d).isSome) = true :=
        List.all_eq_true.mpr (fun d hd => (hl d hd).1)
      obtain ⟨rows, hrows⟩ :=
        buildDisplayData_ok (l.mergeSort reminderLeB) (by
          intro d hd
          have hdl : d ∈ l := List.mem_mergeSort.mp hd
          exact ⟨(hl d hdl).2.1, (hl d hdl).2.2,
            reminderSortKey_time (hl d hdl).1⟩)
      exact ⟨rows, by simp [renderReminderTable, sorted_reminders, hall, hemp, hrows]⟩

theorem C3_failures_caught_witness :
    get_gemini_response (ChatOutcome.exc "timeout") =
      "Error communicating with Gemini API: timeout. Please check your API key and network connection." ∧
    (find_nearby_clinics (some "KEY") (HttpOutcome.requestExc "refused")).1 = [] ∧
    (∃ rows, renderReminderTable
      [[("user_id", FVal.str "u"), ("medicine_name", FVal.str "Aspirin"),
        ("dosage", FVal.str "1 tablet"), ("time", FVal.str "08:00"),
        ("created_at", FVal.timestamp 3)]] = Except.ok rows) :=
  ⟨by
    have h := C3_failures_caught.1 "timeout"
    simpa using h,
   (C3_failures_caught.2.1 (some "KEY") "refused").1,
   C3_failures_caught.2.2.2.2.2 _ (by decide)⟩

/-- C3 counterexample: a stored record whose `time` field is not of the
`%H:%M` shape makes the reminder list display raise an uncaught exception
(the `ValueError` from `strptime` inside the sort key), so not every
failure is caught at the call site. -/
theorem C3_display_raises :
    renderReminderTable [[("time", FVal.str "noon")]] =
      Except.error "exception raised by the sort key" := rfl

/-- C5 (amended): for every successful places-API response, the clinic
search renders, in order, exactly those of the first five results that
carry a (truthy) name, address and place id; in particular when the first
five entries are all complete it renders exactly the top five, and for
shorter all-complete result lists it renders all of them.  The original
claim fails because an incomplete entry among the first five is skipped
rather than rendered. -/
theorem C5_renders_top_five (mapsKey : Option String) (hk : truthy mapsKey = true)
    (data : PlacesData) (rs : List Place) (hres : data.results = some rs) :
    renderedClinics mapsKey (HttpOutcome.ok data) =
        ((rs.take 5).filter completePlace).map placeToClinic ∧
      ((∀ p ∈ rs.take 5, completePlace p) →
        renderedClinics mapsKey (HttpOutcome.ok data) = (rs.take 5).map placeToClinic ∧
          (renderedClinics mapsKey (HttpOutcome.ok data)).length = min 5 rs.length) := by
  have hbase : renderedClinics mapsKey (HttpOutcome.ok data) =
      ((rs.take 5).filter completePlace).map placeToClinic := by
    simp [renderedClinics, find_nearby_clinics, hk, clinicsOfData_eq, hres]
  refine ⟨hbase, fun hcomp => ?_⟩
  have hfilter : (rs.take 5).filter completePlace = rs.take 5 :=
    List.filter_eq_self.mpr hcomp
  rw [hbase, hfilter]
  simp [List.length_take, Nat.min_comm]

theorem C5_renders_top_five_witness :
    renderedClinics (some "KEY")
        (HttpOutcome.ok ⟨some [⟨some "A", some "addr A", some "4.5", some "pa"⟩,
                              ⟨some "B", some "addr B", none, some "pb"⟩]⟩) =
      [⟨"A", "addr A", "4.5", mapsLink "A" "addr A" "pa"⟩,
       ⟨"B", "addr B", "N/A", mapsLink "B" "addr B" "pb"⟩] := by
  have h := (C5_renders_top_five (some "KEY") (by decide)
    ⟨some [⟨some "A", some "addr A", some "4.5", some "pa"⟩,
           ⟨some "B", some "addr B", none, some "pb"⟩]⟩
    [⟨some "A", some "addr A", some "4.5", some "pa"⟩,
     ⟨some "B", some "addr B", none, some "pb"⟩] rfl).1
  rw [h]
  decide

/-- C5 counterexample: a successful response with five results whose first
entry has no place id renders only four links, not the top five. -/
theorem C5_not_all_top_five :
    (renderedClinics (some "KEY")
        (HttpOutcome.ok ⟨some [⟨some "A", some "addr A", some "4.5", none⟩,
                              ⟨some "B", some "addr B", some "4", some "pb"⟩,
                              ⟨some "C", some "addr C", some "4", some "pc"⟩,
                              ⟨some "D", some "addr D", some "4", some "pd"⟩,
                              ⟨some "E", some "addr E", some "4", some "pe"⟩]⟩)).length = 4 := by
  decide

/-- C6: no operation ever updates or deletes a persisted reminder record —
after any trace of add and list operations the database is the original
list of documents with new documents appended at the end, so every stored
document survives unchanged. -/
theorem C6_no_update_delete (fs : Firestore) (ops : List AppOp) :
    ∃ t, runFs fs ops = List.append fs t := by
  induction ops generalizing fs with
  | nil => exact ⟨[], by simp [runFs]⟩
  | cons op rest ih =>
    have hstep : ∃ u, stepFs fs op = List.append fs u := by
      cases op with
      | addOp db w n a m dg tm =>
        cases db with
        | false => exact ⟨[], by simp [stepFs, add_reminder_to_firestore]⟩
        | true =>
          cases w with
          | none =>
            exact ⟨[("reminders", ⟨reminderDoc a m dg tm, n⟩)],
              by simp [stepFs, add_reminder_to_firestore, fsAdd]⟩
          | some e => exact ⟨[], by simp [stepFs, add_reminder_to_firestore]⟩
      | listOp db qr a => exact ⟨[], by simp [stepFs]⟩
    obtain ⟨u, hu⟩ := hstep
    obtain ⟨v, hv⟩ := ih (stepFs fs op)
    refine ⟨List.append u v, ?_⟩
    have : runFs fs (op :: rest) = runFs (stepFs fs op) rest := rfl
    rw [this, hv, hu]
    simp [List.append_assoc]

/-- C7: each absent configuration value yields a visible error message and
the fallback values: an unset Gemini key emits the key error at load; an
unset Maps key makes `find_nearby_clinics` return `[]` with an error; an
unset credentials path leaves `db` as `None` with an error, whereupon
`add_reminder_to_firestore` returns `False` (writing nothing) and
`get_reminders_from_firestore` returns `[]`, each with an error message. -/
theorem C7_missing_config :
    (∀ mk c x r, initGemini ⟨none, mk, c, x, r⟩ ≠ []) ∧
    (∀ o, find_nearby_clinics none o =
      ([], ["Google Maps API Key is not set. Please add it to your .env file."])) ∧
    (∀ g mk x r, (initFirestore ⟨g, mk, none, x, r⟩).1 = false ∧
      (initFirestore ⟨g, mk, none, x, r⟩).2 ≠ []) ∧
    (∀ g mk x r w n fs u m dg t,
      (add_reminder_to_firestore (initFirestore ⟨g, mk, none, x, r⟩).1 w n fs u m dg t).returned
          = false ∧
        (add_reminder_to_firestore (initFirestore ⟨g, mk, none, x, r⟩).1 w n fs u m dg t).fs
          = fs ∧
        (add_reminder_to_firestore (initFirestore ⟨g, mk, none, x, r⟩).1 w n fs u m dg t).errors
          ≠ []) ∧
    (∀ g mk x r qr fs u,
      (get_reminders_from_firestore (initFirestore ⟨g, mk, none, x, r⟩).1 qr fs u).1 = [] ∧
        (get_reminders_from_firestore (initFirestore ⟨g, mk, none, x, r⟩).1 qr fs u).2 ≠ []) := by
  refine ⟨?_, ?_, ?_, ?_, ?_⟩
  · intro mk c x r
    simp [initGemini, truthy]
  · intro o
    rfl
  · intro g mk x r
    exact ⟨rfl, by simp [initFirestore]⟩
  · intro g mk x r w n fs u m dg t
    exact ⟨rfl, rfl, by simp [add_reminder_to_firestore, initFirestore]⟩
  · intro g mk x r qr fs u
    exact ⟨rfl, by simp [get_reminders_from_firestore, initFirestore]⟩

/-- C8: every clinic record returned for a places response comes from an
entry among the first five results with truthy name, address and place id,
copying name and address, defaulting a missing rating to "N/A", and
building the link from name, address and place id; and the number of
records equals the number of such complete entries among the first five
(entries missing any of the three contribute nothing). -/
theorem C8_clinic_fields (data : PlacesData) :
    (∀ c ∈ clinicsOfData data, ∃ p, p ∈ (data.results.getD []).take 5 ∧
      truthy p.name = true ∧ truthy p.formatted_address = true ∧
      truthy p.place_id = true ∧
      c.name = p.name.getD "" ∧ c.address = p.formatted_address.getD "" ∧
      c.rating = p.rating.getD "N/A" ∧
      c.link = mapsLink (p.name.getD "") (p.formatted_address.getD "") (p.place_id.getD "")) ∧
    (clinicsOfData data).length =
      (((data.results.getD []).take 5).filter completePlace).length := by
  constructor
  · intro c hc
    rw [clinicsOfData_eq] at hc
    obtain ⟨p, hp, hpc⟩ := List.mem_map.mp hc
    have hcomp : completePlace p := List.of_mem_filter hp
    have hmem : p ∈ (data.results.getD []).take 5 := List.mem_of_mem_filter hp
    simp only [completePlace, Bool.and_eq_true] at hcomp
    exact ⟨p, hmem, hcomp.1.1, hcomp.1.2, hcomp.2,
      by rw [← hpc]; rfl, by rw [← hpc]; rfl, by rw [← hpc]; rfl, by rw [← hpc]; rfl⟩
  · rw [clinicsOfData_eq]
    simp

theorem C8_clinic_fields_witness :
    ∃ p, p ∈ ((PlacesData.results
        ⟨some [⟨some "A", some "addr A", none, some "pa"⟩]⟩).getD []).take 5 ∧
      truthy p.name = true ∧ truthy p.formatted_address = true ∧
      truthy p.place_id = true ∧
      (Clinic.name ⟨"A", "addr A", "N/A", mapsLink "A" "addr A" "pa"⟩) = p.name.getD "" ∧
      (Clinic.address ⟨"A", "addr A", "N/A", mapsLink "A" "addr A" "pa"⟩) =
        p.formatted_address.getD "" ∧
      (Clinic.rating ⟨"A", "addr A", "N/A", mapsLink "A" "addr A" "pa"⟩) =
        p.rating.getD "N/A" ∧
      (Clinic.link ⟨"A", "addr A", "N/A", mapsLink "A" "addr A" "pa"⟩) =
        mapsLink (p.name.getD "") (p.formatted_address.getD "") (p.place_id.getD "") :=
  (C8_clinic_fields ⟨some [⟨some "A", some "addr A", none, some "pa"⟩]⟩).1
    ⟨"A", "addr A", "N/A", mapsLink "A" "addr A" "pa"⟩ (by decide)

/-- C9: for every database state and user identifier, the reminder query
reads the `reminders` collection and yields precisely the dicts of the
documents whose `user_id` field equals the identifier — a permutation of
that filtered collection, ascending in the resolved creation timestamp —
and a successful add appends its document to the same `reminders`
collection. -/
theorem C9_query_semantics (fs : Firestore) (uid : String) :
    (∃ q, get_reminders_ok fs uid = q.map FsDoc.data ∧
      List.Perm q ((collectionDocs fs "reminders").filter
        (fun d => dictGet d.data "user_id" == some (FVal.str uid))) ∧
      q.Pairwise (fun a b => a.createdAt ≤ b.createdAt)) ∧
    (∀ n mn dg t,
      collectionDocs (add_reminder_to_firestore true none n fs uid mn dg t).fs "reminders" =
        List.append (collectionDocs fs "reminders") [⟨reminderDoc uid mn dg t, n⟩]) := by
  constructor
  · refine ⟨fsQueryWhereOrder fs "reminders" "user_id" (FVal.str uid), rfl, ?_, ?_⟩
    · exact List.mergeSort_perm _ _
    · have h := @List.sorted_mergeSort FsDoc
        (fun a b : FsDoc => decide (a.createdAt ≤ b.createdAt))
        (fun a b c hab hbc => by
          simp only [decide_eq_true_eq] at hab hbc ⊢; omega)
        (fun a b => by
          simp only [Bool.or_eq_true, decide_eq_true_eq]; omega)
        ((collectionDocs fs "reminders").filter
          (fun d => dictGet d.data "user_id" == some (FVal.str uid)))
      exact h.imp (fun hab => by simpa using hab)
  · intro n mn dg t
    simp [add_reminder_to_firestore, collectionDocs_fsAdd]

/-- C10: `add_reminder_to_firestore` is atomic and returns a boolean
status — `False` with the database untouched when `db` is `None` or when
the write raises, and `True` exactly when the write succeeded — and
`get_reminders_from_firestore` always returns a list: `[]` when the
database is unavailable or the query raises, the streamed dicts otherwise. -/
theorem C10_error_atomicity (w : Option String) (e : String) (n : Nat) (fs : Firestore)
    (u m dg t : String) (qr : Option String) :
    (add_reminder_to_firestore false w n fs u m dg t).returned = false ∧
    (add_reminder_to_firestore false w n fs u m dg t).fs = fs ∧
    (add_reminder_to_firestore true (some e) n fs u m dg t).returned = false ∧
    (add_reminder_to_firestore true (some e) n fs u m dg t).fs = fs ∧
    (∀ db wr, (add_reminder_to_firestore db wr n fs u m dg t).returned = true ↔
      (db = true ∧ wr = none)) ∧
    (get_reminders_from_firestore false qr fs u).1 = [] ∧
    (get_reminders_from_firestore true (some e) fs u).1 = [] ∧
    (get_reminders_from_firestore true none fs u).1 = get_reminders_ok fs u := by
  refine ⟨rfl, rfl, rfl, rfl, ?_, rfl, rfl, rfl⟩
  intro db wr
  cases db <;> cases wr <;> simp [add_reminder_to_firestore]

end MediAssist
